import Mathlib

/-!
Shallow embedding of the simulation core of SteveDaulton/ConwaysGameOfLife
(`src/game_of_life/gol.py`, `presets.py`, `custom_types.py`), together with
theorems settling the claims about it.

Python `int` is modelled as `ℤ`, Python `set` as `Finset`, the RNG as an
explicit oracle parameter whose possible outputs are described by the
`randint` interval from the source.
-/

namespace GameOfLife

/-- `custom_types.Point`: grid coordinates, ordered (y, x) as in ncurses. -/
@[ext]
structure Point where
  y : ℤ
  x : ℤ
deriving DecidableEq, Repr

/-- `custom_types.Size`: grid size, ordered (y, x). -/
@[ext]
structure Size where
  y : ℤ
  x : ℤ
deriving DecidableEq, Repr

/-- `custom_types.Preset`: preset initial state of universe. -/
structure Preset where
  idx : ℤ
  name : String
  cells : Finset Point
deriving DecidableEq

/-- `GameOfLifeUI._pad_size = Size(y=40, x=100)` (gol.py line 57),
returned by the classmethod `GameOfLifeUI.display_pad_size()`. -/
def display_pad_size : Size := ⟨40, 100⟩

/-- `gol.neighbours(point)`: yields the eight cells around `point`,
in the source's yield order (gol.py lines 268-292). -/
def neighbours (point : Point) : List Point :=
  [⟨point.y - 1, point.x - 1⟩, ⟨point.y, point.x - 1⟩, ⟨point.y + 1, point.x - 1⟩,
   ⟨point.y - 1, point.x⟩, ⟨point.y + 1, point.x⟩,
   ⟨point.y - 1, point.x + 1⟩, ⟨point.y, point.x + 1⟩, ⟨point.y + 1, point.x + 1⟩]

/-- `gol.cell_in_range(pad_size, cell)`:
`pad_size.y - 1 >= cell.y >= 0 and pad_size.x - 1 >= cell.x >= 0`. -/
def cell_in_range (pad_size : Size) (cell : Point) : Bool :=
  decide (pad_size.y - 1 ≥ cell.y) && decide (cell.y ≥ 0) &&
  decide (pad_size.x - 1 ≥ cell.x) && decide (cell.x ≥ 0)

/-- The bottom-right corner cell `(H-1, W-1)` of bounds `(H, W)`. -/
def corner (sz : Size) : Point := ⟨sz.y - 1, sz.x - 1⟩

/-- The attributes of an initialised `Universe` instance:
`self.display_size` and `self.live_cells` (gol.py lines 221-223). -/
structure UData where
  display_size : Size
  live_cells : Finset Point
deriving DecidableEq

/-- `live_count` for one cell in `Universe.update` (gol.py line 261):
`sum(1 for neighbor in n_cells if neighbor in self.live_cells)`. -/
def liveCount (live : Finset Point) (cell : Point) : ℕ :=
  (neighbours cell).countP (fun n => decide (n ∈ live))

/-- The survival condition of `Universe.update` (gol.py line 262):
`live_count == 3 or (live_count == 2 and cell in self.live_cells)`. -/
def lifeRule (live : Finset Point) (cell : Point) : Prop :=
  liveCount live cell = 3 ∨ (liveCount live cell = 2 ∧ cell ∈ live)

instance (live : Finset Point) (cell : Point) : Decidable (lifeRule live cell) :=
  inferInstanceAs (Decidable (_ ∨ _))

/-- The candidate set of `Universe.update` (gol.py lines 255-257): the live
cells together with every neighbour of a live cell. -/
def candidates (live : Finset Point) : Finset Point :=
  live ∪ live.biUnion (fun cell => (neighbours cell).toFinset)

/-- `Universe.update` (gol.py lines 252-265): keep each candidate that
satisfies the life rule and is in range of the display. -/
def Universe.update (self : UData) : Finset Point :=
  (candidates self.live_cells).filter
    (fun cell => lifeRule self.live_cells cell ∧
      cell_in_range self.display_size cell = true)

/-- `Universe.update` as a state-passing method call: the body only reads
`self.live_cells` and `self.display_size` and assigns no attribute, so
the post-call object state is the input state. -/
def Universe.updateM (self : UData) : Finset Point × UData :=
  (Universe.update self, self)

/-- The universe part of one iteration of `main`'s loop (gol.py lines 319-320):
`universe_old = universe.live_cells; universe.live_cells = universe.update()`.
Returns `universe_old` and the new object state. -/
def mainLoopBody (self : UData) : Finset Point × UData :=
  ((Universe.updateM self).2.live_cells,
   { (Universe.updateM self).2 with live_cells := (Universe.updateM self).1 })

/-- `presets.PRESETS` (presets.py lines 10-45): the static catalog. -/
def PRESETS : List Preset :=
  [⟨0, "Block", {⟨7, 7⟩, ⟨8, 7⟩, ⟨7, 8⟩, ⟨8, 8⟩}⟩,
   ⟨1, "Beehive", {⟨6, 10⟩, ⟨6, 11⟩, ⟨7, 9⟩, ⟨7, 12⟩, ⟨8, 10⟩, ⟨8, 11⟩}⟩,
   ⟨2, "Beacon", {⟨2, 2⟩, ⟨2, 3⟩, ⟨3, 2⟩, ⟨3, 3⟩, ⟨4, 4⟩, ⟨4, 5⟩, ⟨5, 4⟩, ⟨5, 5⟩}⟩,
   ⟨3, "Glider", {⟨2, 3⟩, ⟨3, 4⟩, ⟨4, 2⟩, ⟨4, 3⟩, ⟨4, 4⟩}⟩,
   ⟨4, "R-pentomino", {⟨10, 51⟩, ⟨10, 52⟩, ⟨11, 50⟩, ⟨11, 51⟩, ⟨12, 51⟩}⟩,
   ⟨5, "Pulsar",
    {⟨1, 5⟩, ⟨1, 11⟩, ⟨2, 5⟩, ⟨2, 11⟩, ⟨3, 5⟩, ⟨3, 6⟩, ⟨3, 10⟩, ⟨3, 11⟩,
     ⟨5, 1⟩, ⟨5, 2⟩, ⟨5, 3⟩, ⟨5, 6⟩, ⟨5, 7⟩, ⟨5, 9⟩, ⟨5, 10⟩, ⟨5, 13⟩, ⟨5, 14⟩, ⟨5, 15⟩,
     ⟨6, 3⟩, ⟨6, 5⟩, ⟨6, 7⟩, ⟨6, 9⟩, ⟨6, 11⟩, ⟨6, 13⟩,
     ⟨7, 5⟩, ⟨7, 6⟩, ⟨7, 10⟩, ⟨7, 11⟩, ⟨9, 5⟩, ⟨9, 6⟩, ⟨9, 10⟩, ⟨9, 11⟩,
     ⟨10, 3⟩, ⟨10, 5⟩, ⟨10, 7⟩, ⟨10, 9⟩, ⟨10, 11⟩, ⟨10, 13⟩,
     ⟨11, 1⟩, ⟨11, 2⟩, ⟨11, 3⟩, ⟨11, 6⟩, ⟨11, 7⟩,
     ⟨11, 9⟩, ⟨11, 10⟩, ⟨11, 13⟩, ⟨11, 14⟩, ⟨11, 15⟩,
     ⟨13, 5⟩, ⟨13, 6⟩, ⟨13, 10⟩, ⟨13, 11⟩, ⟨14, 5⟩, ⟨14, 11⟩, ⟨15, 5⟩, ⟨15, 11⟩}⟩,
   ⟨6, "Penadecathlon",
    {⟨4, 5⟩, ⟨5, 4⟩, ⟨5, 6⟩, ⟨6, 3⟩, ⟨6, 7⟩, ⟨7, 3⟩, ⟨7, 7⟩, ⟨8, 3⟩, ⟨8, 7⟩,
     ⟨9, 3⟩, ⟨9, 7⟩, ⟨10, 3⟩, ⟨10, 7⟩, ⟨11, 3⟩, ⟨11, 7⟩, ⟨12, 4⟩, ⟨12, 6⟩, ⟨13, 5⟩}⟩]

/-- The possible outputs of Python's `randint(a, b)`: integers `a..b` inclusive. -/
def randintRange (a b : ℤ) : Finset ℤ := Finset.Icc a b

/-- The possible draw counts of the Random-preset generator in `get_preset`
(gol.py line 34): `randint(1, max_x * max_y)` where `max_x = pad_size.y - 1`
and `max_y = pad_size.x - 1` (gol.py lines 28-30 unpack `Size(y, x)`
positionally into `max_x, max_y`). -/
def drawCountSupport (sz : Size) : Finset ℤ :=
  randintRange 1 ((sz.y - 1) * (sz.x - 1))

/-- The possible draw sequences of the Random-preset generator in `get_preset`
(gol.py lines 28-34): a draw count in `drawCountSupport` and, for each draw,
`Point(randint(0, max_x), randint(0, max_y))`. -/
def randomDrawsPossible (sz : Size) (draws : List Point) : Prop :=
  (draws.length : ℤ) ∈ drawCountSupport sz ∧
  ∀ p ∈ draws, p.y ∈ randintRange 0 (sz.y - 1) ∧ p.x ∈ randintRange 0 (sz.x - 1)

/-- Errors that can escape the embedded operations: Python's `IndexError`
from list indexing and the `AssertionError` from `Universe.__init__`. -/
inductive GolError where
  | indexError : GolError
  | assertionError : GolError
deriving DecidableEq, Repr

/-- Result of `gol.get_preset`: the returned value (a single `Preset` when a
valid non-negative choice was passed, otherwise the whole list) or an error,
together with the module-level `PRESETS` list after the call. -/
structure GetPresetResult where
  ret : Except GolError (Preset ⊕ List Preset)
  presets : List Preset

/-- `gol.get_preset(choice)` (gol.py lines 22-38), with the module-level list
passed explicitly as `presets0` and the RNG-produced cell set of the new
Random preset as `randCells`. `presets[-1]` on an empty list raises
`IndexError`; otherwise a Random preset with identifier `last.idx + 1` is
appended, and `presets[choice]` is returned for `choice >= 0` (raising
`IndexError` when `choice` is past the end), else the whole list. -/
def get_preset (presets0 : List Preset) (randCells : Finset Point) (choice : ℤ) :
    GetPresetResult :=
  match presets0.getLast? with
  | none => ⟨.error .indexError, presets0⟩
  | some last =>
    let random_preset : Preset := ⟨last.idx + 1, "Random", randCells⟩
    let presets := presets0 ++ [random_preset]
    if choice ≥ 0 then
      match presets[choice.toNat]? with
      | some p => ⟨.ok (.inl p), presets⟩
      | none => ⟨.error .indexError, presets⟩
    else ⟨.ok (.inr presets), presets⟩

/-- The module-level state touched by constructing a `Universe`
(gol.py lines 169-224): whether `Universe._instance` is set, the attributes
of the initialised instance (`some` exactly when `Universe._initialized`),
and the module-level `PRESETS` list. -/
structure GlobalState where
  instance_exists : Bool
  udata : Option UData
  presets : List Preset
deriving DecidableEq

/-- `Universe(choice)` — `__new__` (gol.py lines 175-193) followed by
`__init__` (gol.py lines 195-224): when already initialised the body is
skipped entirely; otherwise `get_preset(choice)` is called (appending a
Random preset), the `assert isinstance(..., Preset)` raises
`AssertionError` when a list came back (negative `choice`), indexing
errors propagate, and on success the preset's cells are filtered through
`cell_in_range` against `display_pad_size()`. -/
def Universe.construct (g : GlobalState) (randCells : Finset Point)
    (choice : ℤ) : Option GolError × GlobalState :=
  let g1 : GlobalState := { g with instance_exists := true }
  match g1.udata with
  | some _ => (none, g1)
  | none =>
    let r := get_preset g1.presets randCells choice
    match r.ret with
    | .error e => (some e, { g1 with presets := r.presets })
    | .ok (.inr _) => (some .assertionError, { g1 with presets := r.presets })
    | .ok (.inl preset) =>
      let display_size := display_pad_size
      let live_cells := preset.cells.filter (fun cell => cell_in_range display_size cell)
      (none, { g1 with presets := r.presets,
                       udata := some ⟨display_size, live_cells⟩ })

/-- Identifiers of the catalog are consecutive integers starting at 0:
each preset's stored `idx` equals its position in iteration order. -/
def idsConsecutive (ps : List Preset) : Prop :=
  ∀ i : Fin ps.length, (ps.get i).idx = (i.val : ℤ)

instance (ps : List Preset) : Decidable (idsConsecutive ps) :=
  inferInstanceAs (Decidable (∀ i : Fin ps.length, (ps.get i).idx = (i.val : ℤ)))

/-! ### Basic lemmas about the neighbour enumerator -/

theorem neighbours_length (p : Point) : (neighbours p).length = 8 := rfl

theorem neighbours_nodup (p : Point) : (neighbours p).Nodup := by
  simp [neighbours, Point.ext_iff]
  omega

theorem self_not_mem_neighbours (p : Point) : p ∉ neighbours p := by
  simp [neighbours, Point.ext_iff]
  omega

set_option maxHeartbeats 1000000 in
theorem mem_neighbours_char (a b : Point) :
    a ∈ neighbours b ↔
      (b.y - 1 ≤ a.y ∧ a.y ≤ b.y + 1 ∧ b.x - 1 ≤ a.x ∧ a.x ≤ b.x + 1 ∧
        ¬(a.y = b.y ∧ a.x = b.x)) := by
  simp [neighbours, Point.ext_iff]
  omega

theorem mem_neighbours_symm (a b : Point) : a ∈ neighbours b ↔ b ∈ neighbours a := by
  rw [mem_neighbours_char, mem_neighbours_char]
  omega

/-! ### Characterisation of `Universe.update` -/

theorem cell_in_range_iff (sz : Size) (c : Point) :
    cell_in_range sz c = true ↔
      0 ≤ c.y ∧ c.y ≤ sz.y - 1 ∧ 0 ≤ c.x ∧ c.x ≤ sz.x - 1 := by
  simp only [cell_in_range, Bool.and_eq_true, decide_eq_true_eq, ge_iff_le]
  omega

theorem liveCount_pos_mem_candidates (live : Finset Point) (c : Point)
    (h : 0 < liveCount live c) : c ∈ candidates live := by
  obtain ⟨n, hn, hnl⟩ := List.countP_pos_iff.mp h
  have hnl' : n ∈ live := of_decide_eq_true hnl
  refine Finset.mem_union.mpr (Or.inr (Finset.mem_biUnion.mpr ⟨n, hnl', ?_⟩))
  exact List.mem_toFinset.mpr ((mem_neighbours_symm c n).mpr hn)

theorem mem_update_iff (self : UData) (c : Point) :
    c ∈ Universe.update self ↔
      lifeRule self.live_cells c ∧ cell_in_range self.display_size c = true := by
  constructor
  · intro h
    exact (Finset.mem_filter.mp h).2
  · intro h
    refine Finset.mem_filter.mpr ⟨?_, h⟩
    rcases h.1 with h3 | ⟨_, hmem⟩
    · exact liveCount_pos_mem_candidates _ _ (by omega)
    · exact Finset.mem_union.mpr (Or.inl hmem)

theorem update_empty (sz : Size) : Universe.update ⟨sz, ∅⟩ = ∅ := by
  simp [Universe.update, candidates]

theorem liveCount_singleton_le (p c : Point) : liveCount {p} c ≤ 1 := by
  have h1 : liveCount {p} c = (neighbours c).count p := by
    unfold liveCount List.count
    refine List.countP_congr ?_
    intro a _
    simp [Finset.mem_singleton]
  rw [h1]
  exact List.nodup_iff_count_le_one.mp (neighbours_nodup c) p

theorem update_singleton (sz : Size) (p : Point) :
    Universe.update ⟨sz, {p}⟩ = ∅ := by
  refine Finset.eq_empty_iff_forall_not_mem.mpr (fun c hc => ?_)
  have h : lifeRule {p} c := ((mem_update_iff ⟨sz, {p}⟩ c).mp hc).1
  have hle := liveCount_singleton_le p c
  unfold lifeRule at h
  rcases h with h3 | ⟨h2, _⟩ <;> omega

/-! ### Lemmas about `get_preset` and `Universe.construct` -/

theorem get_preset_presets_eq (ps : List Preset) (rc : Finset Point) (ch : ℤ)
    (last : Preset) (h : ps.getLast? = some last) :
    (get_preset ps rc ch).presets = ps ++ [⟨last.idx + 1, "Random", rc⟩] := by
  unfold get_preset
  rw [h]
  dsimp only
  split
  · split <;> rfl
  · rfl

theorem get_preset_eq_of_neg (ps : List Preset) (rc : Finset Point) (ch : ℤ)
    (last : Preset) (h : ps.getLast? = some last) (hch : ch < 0) :
    get_preset ps rc ch =
      ⟨.ok (.inr (ps ++ [⟨last.idx + 1, "Random", rc⟩])),
        ps ++ [⟨last.idx + 1, "Random", rc⟩]⟩ := by
  unfold get_preset
  rw [h]
  dsimp only
  rw [if_neg (by omega)]

theorem get_preset_eq_of_large (ps : List Preset) (rc : Finset Point) (ch : ℤ)
    (last : Preset) (h : ps.getLast? = some last)
    (hch : (ps.length : ℤ) + 1 ≤ ch) :
    get_preset ps rc ch =
      ⟨.error .indexError, ps ++ [⟨last.idx + 1, "Random", rc⟩]⟩ := by
  unfold get_preset
  rw [h]
  dsimp only
  rw [if_pos (by omega)]
  have hnone : (ps ++ [(⟨last.idx + 1, "Random", rc⟩ : Preset)])[ch.toNat]? = none := by
    refine List.getElem?_eq_none ?_
    simp only [List.length_append, List.length_singleton]
    omega
  rw [hnone]

theorem construct_fresh_cases (g : GlobalState) (rc : Finset Point) (ch : ℤ)
    (d : UData) (hfresh : g.udata = none)
    (hres : (Universe.construct g rc ch).2.udata = some d) :
    ∃ preset : Preset, (get_preset g.presets rc ch).ret = .ok (.inl preset) ∧
      d = ⟨display_pad_size,
            preset.cells.filter (fun cell => cell_in_range display_pad_size cell)⟩ := by
  unfold Universe.construct at hres
  dsimp only at hres
  rw [hfresh] at hres
  dsimp only at hres
  split at hres
  · simp only [GlobalState.mk.injEq] at hres
    cases hres
  · simp only [GlobalState.mk.injEq] at hres
    cases hres
  · rename_i preset heq
    refine ⟨preset, heq, ?_⟩
    simp only [Option.some.injEq] at hres
    exact hres.symm

/-! ### Claim theorems -/

/-- C1: `Universe.update()` applied to live-cell set `S` returns exactly the
coordinates that satisfy the bounds validity predicate and have exactly
3 live neighbours in `S`, or exactly 2 live neighbours in `S` while being a
member of `S`; in particular the empty set maps to the empty set and a
single isolated live cell produces the empty set. -/
theorem C1_update_characterisation :
    (∀ (self : UData) (c : Point),
      c ∈ Universe.update self ↔
        cell_in_range self.display_size c = true ∧
        (liveCount self.live_cells c = 3 ∨
          (liveCount self.live_cells c = 2 ∧ c ∈ self.live_cells))) ∧
    (∀ sz : Size, Universe.update ⟨sz, ∅⟩ = ∅) ∧
    (∀ (sz : Size) (p : Point), Universe.update ⟨sz, {p}⟩ = ∅) := by
  refine ⟨fun self c => ?_, update_empty, update_singleton⟩
  rw [mem_update_iff]
  unfold lifeRule
  tauto

/-- C4: `neighbours(p)` yields exactly the eight listed coordinates in the
listed order (so repeated calls agree and no filtering or deduplication
occurs, negative coordinates included), they are pairwise distinct, and
none of them equals `p`. -/
theorem C4_neighbours_spec (p : Point) :
    neighbours p =
      [⟨p.y - 1, p.x - 1⟩, ⟨p.y, p.x - 1⟩, ⟨p.y + 1, p.x - 1⟩, ⟨p.y - 1, p.x⟩,
       ⟨p.y + 1, p.x⟩, ⟨p.y - 1, p.x + 1⟩, ⟨p.y, p.x + 1⟩, ⟨p.y + 1, p.x + 1⟩] ∧
    (neighbours p).length = 8 ∧ (neighbours p).Nodup ∧ p ∉ neighbours p :=
  ⟨rfl, rfl, neighbours_nodup p, self_not_mem_neighbours p⟩

/-- C3: `cell_in_range((H, W), (r, c))` is true iff `0 ≤ r ≤ H-1` and
`0 ≤ c ≤ W-1`, and the corner `(H-1, W-1)` is gated by that same predicate
both in the seeding filter of `Universe.__init__` and in the output filter
of `Universe.update` (one consistent corner policy; concretely the corner
is valid for the display pad size). -/
theorem C3_cell_in_range_spec :
    (∀ (sz : Size) (c : Point),
      cell_in_range sz c = true ↔
        0 ≤ c.y ∧ c.y ≤ sz.y - 1 ∧ 0 ≤ c.x ∧ c.x ≤ sz.x - 1) ∧
    (∀ (sz : Size) (cells : Finset Point),
      corner sz ∈ cells.filter (fun cell => cell_in_range sz cell) ↔
        corner sz ∈ cells ∧ cell_in_range sz (corner sz) = true) ∧
    (∀ self : UData,
      corner self.display_size ∈ Universe.update self ↔
        lifeRule self.live_cells (corner self.display_size) ∧
        cell_in_range self.display_size (corner self.display_size) = true) ∧
    cell_in_range display_pad_size (corner display_pad_size) = true := by
  refine ⟨cell_in_range_iff, fun sz cells => ?_, fun self => mem_update_iff self _, by decide⟩
  exact Finset.mem_filter

/-- C2: the live-cell set installed by a fresh `Universe.__init__` lies within
`[0, H-1] × [0, W-1]` of its display size, and every cell of
`Universe.update()` applied to any state also lies within those bounds
(cells outside are absent from the output). -/
theorem C2_bounds_invariant :
    (∀ (g : GlobalState) (rc : Finset Point) (ch : ℤ) (d : UData),
      g.udata = none → (Universe.construct g rc ch).2.udata = some d →
        ∀ c ∈ d.live_cells,
          0 ≤ c.y ∧ c.y ≤ d.display_size.y - 1 ∧
          0 ≤ c.x ∧ c.x ≤ d.display_size.x - 1) ∧
    (∀ self : UData, ∀ c ∈ Universe.update self,
      0 ≤ c.y ∧ c.y ≤ self.display_size.y - 1 ∧
      0 ≤ c.x ∧ c.x ≤ self.display_size.x - 1) := by
  constructor
  · intro g rc ch d hfresh hres c hc
    obtain ⟨preset, -, hd⟩ := construct_fresh_cases g rc ch d hfresh hres
    subst hd
    have hc' := (Finset.mem_filter.mp hc).2
    exact (cell_in_range_iff _ c).mp hc'
  · intro self c hc
    exact (cell_in_range_iff _ c).mp ((mem_update_iff self c).mp hc).2

/-- C2 witness: a fresh construction with the Block preset installs exactly
the Block cells, all within bounds, and a concrete cell of a concrete
`update` output is within bounds. -/
theorem C2_bounds_invariant_witness :
    ((⟨false, none, [⟨0, "Block", {⟨7, 7⟩, ⟨8, 7⟩, ⟨7, 8⟩, ⟨8, 8⟩}⟩]⟩ :
        GlobalState).udata = none) ∧
    ((Universe.construct
        ⟨false, none, [⟨0, "Block", {⟨7, 7⟩, ⟨8, 7⟩, ⟨7, 8⟩, ⟨8, 8⟩}⟩]⟩ ∅ 0).2.udata =
      some ⟨⟨40, 100⟩, {⟨7, 7⟩, ⟨8, 7⟩, ⟨7, 8⟩, ⟨8, 8⟩}⟩) ∧
    (∀ c ∈ (⟨⟨40, 100⟩, {⟨7, 7⟩, ⟨8, 7⟩, ⟨7, 8⟩, ⟨8, 8⟩}⟩ : UData).live_cells,
      0 ≤ c.y ∧ c.y ≤ (40 : ℤ) - 1 ∧ 0 ≤ c.x ∧ c.x ≤ (100 : ℤ) - 1) ∧
    ((⟨0, 0⟩ : Point) ∈ Universe.update ⟨⟨40, 100⟩, {⟨0, 0⟩, ⟨0, 1⟩, ⟨1, 0⟩, ⟨1, 1⟩}⟩) ∧
    (0 ≤ (0 : ℤ) ∧ (0 : ℤ) ≤ 40 - 1 ∧ 0 ≤ (0 : ℤ) ∧ (0 : ℤ) ≤ 100 - 1) :=
  ⟨rfl, by decide,
   C2_bounds_invariant.1 ⟨false, none, [⟨0, "Block", {⟨7, 7⟩, ⟨8, 7⟩, ⟨7, 8⟩, ⟨8, 8⟩}⟩]⟩
     ∅ 0 ⟨⟨40, 100⟩, {⟨7, 7⟩, ⟨8, 7⟩, ⟨7, 8⟩, ⟨8, 8⟩}⟩ rfl (by decide),
   by decide,
   C2_bounds_invariant.2 ⟨⟨40, 100⟩, {⟨0, 0⟩, ⟨0, 1⟩, ⟨1, 0⟩, ⟨1, 1⟩}⟩ ⟨0, 0⟩ (by decide)⟩

/-- C10: `Universe.update()` is pure with respect to the holder's state —
the method returns the next generation and leaves `live_cells` and
`display_size` untouched; installing the returned set happens only in the
caller (`main`'s loop assigns it back). -/
theorem C10_update_pure (self : UData) :
    (Universe.updateM self).2 = self ∧
    (Universe.updateM self).1 = Universe.update self ∧
    (mainLoopBody self).1 = self.live_cells ∧
    (mainLoopBody self).2 = ⟨self.display_size, Universe.update self⟩ :=
  ⟨rfl, rfl, rfl, rfl⟩

/-- C8: once the Universe is initialised, every later construction — with any
argument, valid or invalid — raises no error, performs no preset lookup or
append, and leaves `live_cells` and `display_size` unchanged; the `choice`
(and RNG) arguments of later constructions are ignored. -/
theorem C8_reinit_noop (g : GlobalState) (rc rc' : Finset Point) (ch ch' : ℤ)
    (d : UData) (h : g.udata = some d) :
    (Universe.construct g rc ch).1 = none ∧
    (Universe.construct g rc ch).2.udata = some d ∧
    (Universe.construct g rc ch).2.presets = g.presets ∧
    Universe.construct g rc ch = Universe.construct g rc' ch' := by
  simp [Universe.construct, h]

/-- C8 witness: a concrete initialised state is untouched by a second
construction with an invalid argument. -/
theorem C8_reinit_noop_witness :
    ((⟨true, some ⟨⟨40, 100⟩, ∅⟩, []⟩ : GlobalState).udata = some ⟨⟨40, 100⟩, ∅⟩) ∧
    ((Universe.construct ⟨true, some ⟨⟨40, 100⟩, ∅⟩, []⟩ ∅ (-7)).1 = none ∧
     (Universe.construct ⟨true, some ⟨⟨40, 100⟩, ∅⟩, []⟩ ∅ (-7)).2.udata =
       some ⟨⟨40, 100⟩, ∅⟩ ∧
     (Universe.construct ⟨true, some ⟨⟨40, 100⟩, ∅⟩, []⟩ ∅ (-7)).2.presets =
       (⟨true, some ⟨⟨40, 100⟩, ∅⟩, []⟩ : GlobalState).presets ∧
     Universe.construct ⟨true, some ⟨⟨40, 100⟩, ∅⟩, []⟩ ∅ (-7) =
       Universe.construct ⟨true, some ⟨⟨40, 100⟩, ∅⟩, []⟩ {⟨1, 1⟩} 3) :=
  ⟨rfl, C8_reinit_noop _ ∅ {⟨1, 1⟩} (-7) 3 _ rfl⟩

/-- C5 (amended): provided the Universe has not yet been initialised, a
construction with an identifier outside `[0, n+1)` — where `n` is the
catalog size before the call and the call itself appends one Random entry —
raises `AssertionError` (negative id) or `IndexError` (too-large id), with
no substitution or clamping, and no live-cell state is installed. -/
theorem C5_invalid_rejected (g : GlobalState) (rc : Finset Point) (ch : ℤ)
    (hfresh : g.udata = none) (last : Preset)
    (hlast : g.presets.getLast? = some last)
    (hinv : ch < 0 ∨ (g.presets.length : ℤ) + 1 ≤ ch) :
    ((Universe.construct g rc ch).1 = some .assertionError ∨
      (Universe.construct g rc ch).1 = some .indexError) ∧
    (Universe.construct g rc ch).2.udata = none := by
  unfold Universe.construct
  dsimp only
  rw [hfresh]
  rcases hinv with hneg | hbig
  · rw [get_preset_eq_of_neg g.presets rc ch last hlast hneg]
    exact ⟨Or.inl rfl, rfl⟩
  · rw [get_preset_eq_of_large g.presets rc ch last hlast hbig]
    exact ⟨Or.inr rfl, rfl⟩

/-- C5 witness: a fresh state with a one-entry catalog rejects identifier 5. -/
theorem C5_invalid_rejected_witness :
    ((⟨false, none, [⟨0, "Block", ∅⟩]⟩ : GlobalState).udata = none) ∧
    (([⟨0, "Block", (∅ : Finset Point)⟩] : List Preset).getLast? =
      some ⟨0, "Block", ∅⟩) ∧
    ((5 : ℤ) < 0 ∨
      ((([⟨0, "Block", (∅ : Finset Point)⟩] : List Preset).length : ℤ) + 1 ≤ 5)) ∧
    (((Universe.construct ⟨false, none, [⟨0, "Block", ∅⟩]⟩ ∅ 5).1 =
        some .assertionError ∨
      (Universe.construct ⟨false, none, [⟨0, "Block", ∅⟩]⟩ ∅ 5).1 =
        some .indexError) ∧
     (Universe.construct ⟨false, none, [⟨0, "Block", ∅⟩]⟩ ∅ 5).2.udata = none) :=
  ⟨rfl, rfl, by decide, C5_invalid_rejected _ ∅ 5 rfl _ rfl (by decide)⟩

/-- C5 counterexample: once the singleton is initialised, constructing with
the out-of-range identifier `-5` raises no error at all and touches nothing —
contradicting the claim that every initialisation with an invalid identifier
surfaces the error. -/
theorem C5_counterexample :
    ((-5 : ℤ) < 0) ∧
    (Universe.construct ⟨true, some ⟨display_pad_size, ∅⟩, PRESETS⟩ ∅ (-5)).1 =
      none ∧
    (Universe.construct ⟨true, some ⟨display_pad_size, ∅⟩, PRESETS⟩ ∅ (-5)).2.udata =
      some ⟨display_pad_size, ∅⟩ :=
  ⟨by decide, rfl, rfl⟩

/-- C9: every call of `get_preset` — with or without a valid choice — appends
exactly one new Random preset to the module-level list, growing the catalog
by one entry per call. -/
theorem C9_get_preset_appends (ps : List Preset) (rc : Finset Point) (ch : ℤ)
    (last : Preset) (h : ps.getLast? = some last) :
    (get_preset ps rc ch).presets = ps ++ [⟨last.idx + 1, "Random", rc⟩] ∧
    (get_preset ps rc ch).presets.length = ps.length + 1 := by
  have he := get_preset_presets_eq ps rc ch last h
  refine ⟨he, ?_⟩
  rw [he]
  simp

/-- C9 witness: one call on a one-entry catalog yields a two-entry catalog. -/
theorem C9_get_preset_appends_witness :
    (([⟨0, "Block", (∅ : Finset Point)⟩] : List Preset).getLast? =
      some ⟨0, "Block", ∅⟩) ∧
    ((get_preset [⟨0, "Block", ∅⟩] ∅ (-1)).presets =
      [⟨0, "Block", ∅⟩] ++ [⟨0 + 1, "Random", ∅⟩] ∧
     (get_preset [⟨0, "Block", ∅⟩] ∅ (-1)).presets.length =
      ([⟨0, "Block", (∅ : Finset Point)⟩] : List Preset).length + 1) :=
  ⟨rfl, C9_get_preset_appends [⟨0, "Block", ∅⟩] ∅ (-1) ⟨0, "Block", ∅⟩ rfl⟩

/-- C6: the static catalog's identifiers equal positions, and `get_preset`
preserves that invariant for any nonempty catalog, so every catalog it
returns has consecutive identifiers starting at 0 with no gaps. -/
theorem C6_catalog_ids_consecutive :
    idsConsecutive PRESETS ∧
    ∀ (ps : List Preset) (rc : Finset Point) (ch : ℤ),
      ps ≠ [] → idsConsecutive ps → idsConsecutive (get_preset ps rc ch).presets := by
  refine ⟨by decide, ?_⟩
  intro ps rc ch hne hcons
  have hlast : ps.getLast? = some (ps.getLast hne) := List.getLast?_eq_getLast ps hne
  have hpe := get_preset_presets_eq ps rc ch _ hlast
  have hlen : 0 < ps.length := List.length_pos.mpr hne
  have hidlast : (ps.getLast hne).idx = ((ps.length - 1 : ℕ) : ℤ) := by
    have hg : ps.getLast hne = ps.get ⟨ps.length - 1, by omega⟩ := by
      rw [List.get_eq_getElem]
      exact List.getLast_eq_getElem ps hne
    rw [hg]
    exact hcons ⟨ps.length - 1, by omega⟩
  unfold idsConsecutive
  rw [hpe]
  intro i
  have hilt : i.val < ps.length + 1 := by
    have h8 := i.isLt
    simpa using h8
  by_cases hlt : i.val < ps.length
  · have hg : (ps ++ [(⟨(ps.getLast hne).idx + 1, "Random", rc⟩ : Preset)]).get i =
        ps.get ⟨i.val, hlt⟩ := by
      simp only [List.get_eq_getElem]
      exact List.getElem_append_left hlt
    rw [hg]
    exact hcons ⟨i.val, hlt⟩
  · have hieq : i.val = ps.length := by omega
    have hg : (ps ++ [(⟨(ps.getLast hne).idx + 1, "Random", rc⟩ : Preset)]).get i =
        ⟨(ps.getLast hne).idx + 1, "Random", rc⟩ := by
      simp only [List.get_eq_getElem]
      rw [List.getElem_append_right (by omega)]
      simp [hieq]
    rw [hg]
    dsimp only
    omega

/-- C6 witness: the invariant holds for a concrete one-entry catalog and is
preserved by a concrete `get_preset` call. -/
theorem C6_catalog_ids_consecutive_witness :
    (([⟨0, "Block", (∅ : Finset Point)⟩] : List Preset) ≠ []) ∧
    idsConsecutive [⟨0, "Block", ∅⟩] ∧
    idsConsecutive (get_preset [⟨0, "Block", ∅⟩] ∅ (-1)).presets :=
  ⟨by decide, by decide,
   C6_catalog_ids_consecutive.2 [⟨0, "Block", ∅⟩] ∅ (-1) (by decide) (by decide)⟩

/-- C7 (amended): a possible run of the Random-preset generator makes between
1 and `(H-1)*(W-1)` cell draws inclusive (not `H*W`), every generated cell
lies within `[0, H-1] × [0, W-1]` — possibly including the bottom-right
corner cell, which `cell_in_range` accepts, so it is not filtered out at
Universe initialisation either. -/
theorem C7_random_preset_spec :
    (∀ (sz : Size) (draws : List Point),
      randomDrawsPossible sz draws →
        1 ≤ draws.length ∧ (draws.length : ℤ) ≤ (sz.y - 1) * (sz.x - 1) ∧
        ∀ p ∈ draws, 0 ≤ p.y ∧ p.y ≤ sz.y - 1 ∧ 0 ≤ p.x ∧ p.x ≤ sz.x - 1) ∧
    randomDrawsPossible display_pad_size [corner display_pad_size] ∧
    cell_in_range display_pad_size (corner display_pad_size) = true := by
  refine ⟨?_, ⟨?_, ?_⟩, by decide⟩
  · intro sz draws h
    obtain ⟨hcount, hcells⟩ := h
    simp only [drawCountSupport, randintRange, Finset.mem_Icc] at hcount
    refine ⟨by omega, hcount.2, ?_⟩
    intro p hp
    have hc := hcells p hp
    simp only [randintRange, Finset.mem_Icc] at hc
    omega
  · norm_num [drawCountSupport, randintRange, Finset.mem_Icc, display_pad_size]
  · intro p hp
    simp only [List.mem_singleton] at hp
    subst hp
    norm_num [randintRange, Finset.mem_Icc, corner, display_pad_size]

/-- C7 counterexample: the claim's draw-count range `[1, H*W]` does not match
the code: for the display bounds `(40, 100)` the area is 4000, but
`randint(1, (H-1)*(W-1))` can never make 4000 draws — its support tops out
at 3861; moreover `cell_in_range` accepts the corner `(39, 99)`, so the
corner is not filtered out at Universe initialisation. -/
theorem C7_counterexample :
    ((40 * 100 : ℤ) ∈ randintRange 1 (40 * 100)) ∧
    ((40 * 100 : ℤ) ∉ drawCountSupport display_pad_size) ∧
    drawCountSupport display_pad_size ≠ randintRange 1 (40 * 100) ∧
    cell_in_range display_pad_size (corner display_pad_size) = true := by
  have h1 : (40 * 100 : ℤ) ∈ randintRange 1 (40 * 100) := by
    norm_num [randintRange, Finset.mem_Icc]
  have h2 : (40 * 100 : ℤ) ∉ drawCountSupport display_pad_size := by
    norm_num [drawCountSupport, randintRange, Finset.mem_Icc, display_pad_size]
  exact ⟨h1, h2, fun heq => h2 (heq ▸ h1), by decide⟩

/-- C7 witness: a concrete possible draw run (one draw of `(0, 0)`) satisfies
the amended bounds. -/
theorem C7_random_preset_spec_witness :
    randomDrawsPossible ⟨40, 100⟩ [⟨0, 0⟩] ∧
    (1 ≤ ([(⟨0, 0⟩ : Point)]).length ∧
     (([(⟨0, 0⟩ : Point)]).length : ℤ) ≤
       ((⟨40, 100⟩ : Size).y - 1) * ((⟨40, 100⟩ : Size).x - 1) ∧
     ∀ p ∈ [(⟨0, 0⟩ : Point)],
       0 ≤ p.y ∧ p.y ≤ (⟨40, 100⟩ : Size).y - 1 ∧
       0 ≤ p.x ∧ p.x ≤ (⟨40, 100⟩ : Size).x - 1) := by
  have h : randomDrawsPossible ⟨40, 100⟩ [⟨0, 0⟩] := by
    constructor
    · norm_num [drawCountSupport, randintRange, Finset.mem_Icc]
    · intro p hp
      simp only [List.mem_singleton] at hp
      subst hp
      norm_num [randintRange, Finset.mem_Icc]
  exact ⟨h, C7_random_preset_spec.1 ⟨40, 100⟩ [⟨0, 0⟩] h⟩

end GameOfLife
